import Mathlib

/-!
Shallow embedding of the txbench client core of chogori-platform:
  - the pipelined send/ack session state machine of
    src/k2/cmd/txbench/txbench_client.cpp (class Client), and
  - the retry driver of src/k2/transport/RetryStrategy.h
    (class ExponentialBackoffStrategy).

Counters that are uint64_t in the source are modelled as Nat; additions
performed by the send path are reduced mod 2^64 to match uint64_t
wraparound, and the one subtraction that can underflow in the source
(the latency-loop start) is modelled with explicit wraparound.  All
other subtractions in the handler are guarded by the source's own
checks and cannot underflow.
-/

namespace Txbench

/-- uint64_t wraparound for additions. -/
def mod64 (n : Nat) : Nat := n % 2 ^ 64

/-- SessionConfig from txbench_common.h as populated in the Client
constructor (txbench_client.cpp lines 48-52). -/
structure SessionConfig where
  echoMode : Bool
  responseSize : Nat
  pipelineSize : Nat
  pipelineCount : Nat
  ackCount : Nat
deriving Repr, DecidableEq

/-- The per-shard benchmark session fields used by txbench_client.cpp
(`_session.config`, `_session.sessionID`, `_session.totalSize`,
`_session.totalCount`, `_session.unackedSize`, `_session.unackedCount`).
The remote endpoint member is transport-side and not modelled. -/
structure BenchSession where
  config : SessionConfig
  sessionID : Nat
  totalSize : Nat
  totalCount : Nat
  unackedSize : Nat
  unackedCount : Nat
deriving Repr, DecidableEq

/-- The Ack wire record (sessionID, totalCount, totalSize, checksum). -/
structure Ack where
  sessionID : Nat
  totalCount : Nat
  totalSize : Nat
  checksum : Nat
deriving Repr, DecidableEq

/-- The Client members the ack observer and sender touch:
`_session`, `_lastAckedTotal`, `_haveSendPromise`. -/
structure ClientState where
  session : BenchSession
  lastAckedTotal : Nat
  haveSendPromise : Bool
deriving Repr, DecidableEq

/-- The warnings the ack observer can log, in source order
(txbench_client.cpp lines 211-232). -/
inductive AckWarn where
  | unknownSession
  | tooMany
  | tooOld
  | tooMuchData
  | checksumMismatch
deriving Repr, DecidableEq

/-- The observable outcome of one run of the ACK observer: the state it
leaves behind, whether it fulfilled a pending sender awakener, the ring
indices it sampled (in order), the warnings it logged (in order), and
whether it dropped the ack by an early return. -/
structure HandlerResult where
  state : ClientState
  fulfilled : Bool
  samples : List Nat
  warnings : List AckWarn
  dropped : Bool
deriving Repr, DecidableEq

/-- The expected checksum `(ack.totalCount*(ack.totalCount+1))/2`
(txbench_client.cpp line 230). -/
def ackChecksum (totalCount : Nat) : Nat := totalCount * (totalCount + 1) / 2

/-- Start of the latency-sampling loop,
`_session.totalCount - _session.unackedCount` in uint64_t arithmetic
(txbench_client.cpp line 233): wraps around when unackedCount exceeds
totalCount (fields are below 2^64). -/
def ackSampleStart (totalCount unackedCount : Nat) : Nat :=
  if unackedCount ≤ totalCount then totalCount - unackedCount
  else totalCount + 2 ^ 64 - unackedCount

/-- The ACK message observer registered in Client::_benchmark
(txbench_client.cpp lines 206-245), as a function of the current client
state and the (possibly absent) decoded Ack payload. -/
def ackObserver : ClientState → Option Ack → HandlerResult
  | st, none => ⟨st, false, [], [], false⟩
  | st, some ack =>
    if ack.sessionID ≠ st.session.sessionID then
      ⟨st, false, [], [AckWarn.unknownSession], true⟩
    else if st.session.totalCount < ack.totalCount then
      ⟨st, false, [], [AckWarn.tooMany], true⟩
    else
      let staleWarns : List AckWarn :=
        if ack.totalCount ≤ st.lastAckedTotal then [AckWarn.tooOld] else []
      if st.session.totalSize < ack.totalSize then
        ⟨st, false, [], staleWarns ++ [AckWarn.tooMuchData], true⟩
      else
        let checksumWarns : List AckWarn :=
          if ack.checksum ≠ ackChecksum ack.totalCount then [AckWarn.checksumMismatch] else []
        let start := ackSampleStart st.session.totalCount st.session.unackedCount
        let samples :=
          (List.range' start (ack.totalCount - start)).map
            (fun reqid => reqid % st.session.config.pipelineCount)
        ⟨{ st with
             session := { st.session with
               unackedCount := st.session.totalCount - ack.totalCount,
               unackedSize := st.session.totalSize - ack.totalSize },
             haveSendPromise := false },
         st.haveSendPromise,
         samples,
         staleWarns ++ checksumWarns,
         false⟩

/-- Client::canSend (txbench_client.cpp lines 269-272). -/
def canSend (st : ClientState) : Prop :=
  st.session.unackedSize < st.session.config.pipelineSize ∧
  st.session.unackedCount < st.session.config.pipelineCount

instance (st : ClientState) : Decidable (canSend st) := by
  unfold canSend; infer_instance

/-- The state mutation performed by Client::send
(txbench_client.cpp lines 278-281), in uint64_t arithmetic. -/
def sendUpdate (st : ClientState) : ClientState :=
  { st with session := { st.session with
      totalSize := mod64 (st.session.totalSize + st.session.config.responseSize),
      totalCount := mod64 (st.session.totalCount + 1),
      unackedSize := mod64 (st.session.unackedSize + st.session.config.responseSize),
      unackedCount := mod64 (st.session.unackedCount + 1) } }

/-- The zeroed session right after Client::_startSession reset
(txbench_client.cpp lines 176-180 together with the zero-initialised
BenchSession members): counters zero, `_lastAckedTotal = 0`, no pending
send promise. -/
def initState (cfg : SessionConfig) (sid : Nat) : ClientState :=
  ⟨⟨cfg, sid, 0, 0, 0, 0⟩, 0, false⟩

/-- Reachable session states: any interleaving of guarded sends (the
benchmark loop only calls send when canSend holds, txbench_client.cpp
lines 250-263) and deliveries of arbitrary acks to the observer. -/
inductive Reachable (cfg : SessionConfig) (sid : Nat) : ClientState → Prop
  | init : Reachable cfg sid (initState cfg sid)
  | send {st : ClientState} : Reachable cfg sid st → canSend st →
      Reachable cfg sid (sendUpdate st)
  | ack {st : ClientState} (a : Ack) : Reachable cfg sid st →
      Reachable cfg sid ((ackObserver st (some a)).state)

/-- An ack is non-stale for a state when its cumulative totals cover at
least everything the client already considers acked. -/
def NonStaleAck (st : ClientState) (a : Ack) : Prop :=
  st.session.totalCount - st.session.unackedCount ≤ a.totalCount ∧
  st.session.totalSize - st.session.unackedSize ≤ a.totalSize

/-- Reachability restricted to non-stale acks. -/
inductive NSReachable (cfg : SessionConfig) (sid : Nat) : ClientState → Prop
  | init : NSReachable cfg sid (initState cfg sid)
  | send {st : ClientState} : NSReachable cfg sid st → canSend st →
      NSReachable cfg sid (sendUpdate st)
  | ack {st : ClientState} (a : Ack) : NSReachable cfg sid st → NonStaleAck st a →
      NSReachable cfg sid ((ackObserver st (some a)).state)

/-! Branch lemmas for the ack observer, one per early return of the
source handler. -/

lemma ackObserver_drop_session (st : ClientState) (a : Ack)
    (h : a.sessionID ≠ st.session.sessionID) :
    ackObserver st (some a) = ⟨st, false, [], [AckWarn.unknownSession], true⟩ := by
  simp only [ackObserver]
  rw [if_pos h]

lemma ackObserver_drop_count (st : ClientState) (a : Ack)
    (h1 : a.sessionID = st.session.sessionID)
    (h2 : st.session.totalCount < a.totalCount) :
    ackObserver st (some a) = ⟨st, false, [], [AckWarn.tooMany], true⟩ := by
  simp only [ackObserver]
  rw [if_neg (fun hne => hne h1), if_pos h2]

lemma ackObserver_drop_size (st : ClientState) (a : Ack)
    (h1 : a.sessionID = st.session.sessionID)
    (h2 : a.totalCount ≤ st.session.totalCount)
    (h3 : st.session.totalSize < a.totalSize) :
    ackObserver st (some a) =
      ⟨st, false, [],
       (if a.totalCount ≤ st.lastAckedTotal then [AckWarn.tooOld] else []) ++ [AckWarn.tooMuchData],
       true⟩ := by
  simp only [ackObserver]
  rw [if_neg (fun hne => hne h1), if_neg (Nat.not_lt.mpr h2)]
  simp only [if_pos h3]

lemma ackObserver_processed (st : ClientState) (a : Ack)
    (h1 : a.sessionID = st.session.sessionID)
    (h2 : a.totalCount ≤ st.session.totalCount)
    (h3 : a.totalSize ≤ st.session.totalSize) :
    ackObserver st (some a) =
      ⟨{ st with
           session := { st.session with
             unackedCount := st.session.totalCount - a.totalCount,
             unackedSize := st.session.totalSize - a.totalSize },
           haveSendPromise := false },
       st.haveSendPromise,
       (List.range' (ackSampleStart st.session.totalCount st.session.unackedCount)
          (a.totalCount - ackSampleStart st.session.totalCount st.session.unackedCount)).map
         (fun reqid => reqid % st.session.config.pipelineCount),
       (if a.totalCount ≤ st.lastAckedTotal then [AckWarn.tooOld] else []) ++
         (if a.checksum ≠ ackChecksum a.totalCount then [AckWarn.checksumMismatch] else []),
       false⟩ := by
  simp only [ackObserver]
  rw [if_neg (fun hne => hne h1), if_neg (Nat.not_lt.mpr h2), if_neg (Nat.not_lt.mpr h3)]

/-- The observer never changes the session configuration. -/
lemma ackObserver_config (st : ClientState) (p : Option Ack) :
    ((ackObserver st p).state).session.config = st.session.config := by
  match p with
  | none => rfl
  | some a =>
    simp only [ackObserver]
    by_cases hs : a.sessionID ≠ st.session.sessionID
    · rw [if_pos hs]
    · rw [if_neg hs]
      by_cases hc : st.session.totalCount < a.totalCount
      · rw [if_pos hc]
      · rw [if_neg hc]
        by_cases hz : st.session.totalSize < a.totalSize
        · simp only [if_pos hz]
        · simp only [if_neg hz]

lemma sendUpdate_config (st : ClientState) :
    (sendUpdate st).session.config = st.session.config := rfl

lemma nsreachable_config {cfg : SessionConfig} {sid : Nat} {st : ClientState}
    (h : NSReachable cfg sid st) : st.session.config = cfg := by
  induction h with
  | init => rfl
  | send _ _ ih => rw [sendUpdate_config]; exact ih
  | ack a _ _ ih => rw [ackObserver_config]; exact ih

/-- A processed non-stale ack never increases the unacked counters. -/
lemma ackObserver_unacked_le (st : ClientState) (a : Ack) (hns : NonStaleAck st a) :
    ((ackObserver st (some a)).state).session.unackedCount ≤ st.session.unackedCount ∧
    ((ackObserver st (some a)).state).session.unackedSize ≤ st.session.unackedSize := by
  by_cases hs : a.sessionID ≠ st.session.sessionID
  · rw [ackObserver_drop_session st a hs]
    exact ⟨Nat.le_refl _, Nat.le_refl _⟩
  · have h1 : a.sessionID = st.session.sessionID := not_not.mp hs
    by_cases hc : st.session.totalCount < a.totalCount
    · rw [ackObserver_drop_count st a h1 hc]
      exact ⟨Nat.le_refl _, Nat.le_refl _⟩
    · have h2 : a.totalCount ≤ st.session.totalCount := Nat.not_lt.mp hc
      by_cases hz : st.session.totalSize < a.totalSize
      · rw [ackObserver_drop_size st a h1 h2 hz]
        exact ⟨Nat.le_refl _, Nat.le_refl _⟩
      · have h3 : a.totalSize ≤ st.session.totalSize := Nat.not_lt.mp hz
        rw [ackObserver_processed st a h1 h2 h3]
        obtain ⟨hnc, hnz⟩ := hns
        constructor
        · exact Nat.le_trans (Nat.sub_le_sub_left hnc _) (by omega)
        · exact Nat.le_trans (Nat.sub_le_sub_left hnz _) (by omega)

/-! The retry driver of src/k2/transport/RetryStrategy.h. -/

/-- Outcome of one invocation of the operated function: success,
an ordinary failure, or a DispatcherShutdown failure (RetryStrategy.h
line 86). -/
inductive FuncOutcome where
  | ok
  | err
  | shutdown
deriving Repr, DecidableEq

/-- What the future returned by run resolves to: the last attempt's
success, the last attempt's error, the default or shutdown-induced
RequestTimeoutException (RetryStrategy.h lines 77 and 89), or the
DuplicateExecutionException (line 74). -/
inductive RunOutcome where
  | ok
  | lastError
  | requestTimeout
  | duplicate
deriving Repr, DecidableEq

/-- Observable trace of the do_until loop inside run: the
(remainingRetries, timeout) argument pairs passed to the function in
order, the stored last result, and the final values of the mutated
fields. -/
structure LoopRes where
  calls : List (Nat × Nat)
  res : RunOutcome
  tryNum : Nat
  timeout : Nat
  success : Bool
deriving Repr, DecidableEq

/-- The do_until loop of ExponentialBackoffStrategy::run
(RetryStrategy.h lines 78-99): while not success and tryNum below
retries, increment tryNum, multiply the current timeout by it, invoke
the function, record its outcome (shutdown fast-forwards tryNum to
retries and stores a RequestTimeoutException).  The fuel argument only
drives the recursion; with fuel ≥ retries - tryNum it is never
exhausted, since every iteration increases tryNum. -/
def runAux (func : Nat → Nat → FuncOutcome) (retries : Nat) :
    Nat → Nat → Nat → Bool → RunOutcome → LoopRes
  | 0, tryNum, timeout, success, res => ⟨[], res, tryNum, timeout, success⟩
  | fuel + 1, tryNum, timeout, success, res =>
    if success = true ∨ retries ≤ tryNum then ⟨[], res, tryNum, timeout, success⟩
    else
      let t := tryNum + 1
      let tmo := timeout * t
      match func (retries - t) tmo with
      | FuncOutcome.ok =>
        let r := runAux func retries fuel t tmo true RunOutcome.ok
        { r with calls := (retries - t, tmo) :: r.calls }
      | FuncOutcome.err =>
        let r := runAux func retries fuel t tmo false RunOutcome.lastError
        { r with calls := (retries - t, tmo) :: r.calls }
      | FuncOutcome.shutdown =>
        let r := runAux func retries fuel retries tmo false RunOutcome.requestTimeout
        { r with calls := (retries - t, tmo) :: r.calls }

/-- The fields of ExponentialBackoffStrategy (RetryStrategy.h lines
107-119); Duration is modelled as a Nat number of ticks. -/
structure ExponentialBackoffStrategy where
  retries : Nat
  tryNum : Nat
  rate : Nat
  currentTimeout : Nat
  success : Bool
  used : Bool
deriving Repr, DecidableEq

/-- ExponentialBackoffStrategy::run (RetryStrategy.h lines 70-105): if
the strategy was marked used, fail with DuplicateExecutionException;
otherwise run the do_until loop, whose stored result starts as the
default RequestTimeoutException.  Note the source never sets _used, so
the returned strategy keeps its old used flag. -/
def ExponentialBackoffStrategy.run (st : ExponentialBackoffStrategy)
    (func : Nat → Nat → FuncOutcome) : LoopRes × ExponentialBackoffStrategy :=
  if st.used then
    (⟨[], RunOutcome.duplicate, st.tryNum, st.currentTimeout, st.success⟩, st)
  else
    let r := runAux func st.retries st.retries st.tryNum st.currentTimeout st.success
      RunOutcome.requestTimeout
    (r, { st with tryNum := r.tryNum, currentTimeout := r.timeout, success := r.success })

/-- Modelled from the spec: the constructor and the withRetries /
withRate / withStartTimeout setters live in RetryStrategy.cpp, which is
absent from src/.  Per the spec's RetryDriver state (section 3), the
try counter starts at zero, the success and single-shot flags start
clear, and the setters store their argument (withStartTimeout seeds
currentTimeout with startTimeout). -/
def mkStrategy (retries rate startTimeout : Nat) : ExponentialBackoffStrategy :=
  ⟨retries, 0, rate, startTimeout, false, false⟩

/-- One unfolding of the loop under an always-failing function. -/
lemma runAux_err_step (func : Nat → Nat → FuncOutcome)
    (hf : ∀ r t, func r t = FuncOutcome.err)
    (retries fuel tryNum timeout : Nat) (res : RunOutcome)
    (h : tryNum < retries) :
    runAux func retries (fuel + 1) tryNum timeout false res =
      { runAux func retries fuel (tryNum + 1) (timeout * (tryNum + 1)) false
          RunOutcome.lastError with
        calls := (retries - (tryNum + 1), timeout * (tryNum + 1)) ::
          (runAux func retries fuel (tryNum + 1) (timeout * (tryNum + 1)) false
            RunOutcome.lastError).calls } := by
  rw [runAux, if_neg (by simp [Nat.not_le.mpr h])]
  simp only [hf]

/-! Concrete inputs used by counterexamples and witnesses. -/

/-- The command-line defaults of txbench_client.cpp (request_size 512,
pipeline_depth_mbytes 200, pipeline_depth_count 10, ack_count 5). -/
def defaultConfig : SessionConfig := ⟨false, 512, 209715200, 10, 5⟩

/-- A configuration with a byte credit smaller than two requests. -/
def cexConfig : SessionConfig := ⟨false, 512, 1000, 10, 5⟩

def stW2 : ClientState := ⟨⟨defaultConfig, 7, 2560, 5, 1024, 2⟩, 0, false⟩

def aW2 : Ack := ⟨7, 4, 2048, 10⟩

def stC5 : ClientState := ⟨⟨defaultConfig, 1, 1536, 3, 1536, 3⟩, 0, false⟩

def aC5 : Ack := ⟨1, 1, 512, 1⟩

def stC6 : ClientState := ⟨⟨defaultConfig, 1, 1536, 3, 1536, 3⟩, 0, false⟩

def aC6 : Ack := ⟨1, 3, 1536, 99⟩

def stC7 : ClientState := ⟨⟨defaultConfig, 1, 512, 1, 512, 1⟩, 0, false⟩

def aC7 : Ack := ⟨1, 2, 1024, 3⟩

def stW7 : ClientState := ⟨⟨defaultConfig, 1, 512, 1, 0, 0⟩, 0, false⟩

def aW7 : Ack := ⟨1, 2, 1024, 3⟩

def stW8 : ClientState := ⟨⟨defaultConfig, 5, 1024, 2, 512, 1⟩, 1, false⟩

def aW8bad : Ack := ⟨6, 1, 512, 1⟩

def aW8stale : Ack := ⟨5, 1, 512, 1⟩

def stW10 : ClientState := ⟨⟨defaultConfig, 1, 2560, 5, 1024, 2⟩, 0, false⟩

def aW10 : Ack := ⟨1, 4, 2048, 10⟩

/-! Claim theorems. -/

/-- C1 counterexample: the claimed invariant
`unackedCount ≤ pipelineCount ∧ unackedSize ≤ pipelineSize` fails on a
reachable state: with responseSize = 512 and pipelineSize = 1000, two
guarded sends from the zeroed state (canSend holds before each, since
`<` is strict) leave unackedSize = 1024 > 1000. -/
theorem c1_counterexample :
    ∃ st, Reachable cexConfig 0 st ∧
      ¬ (st.session.unackedCount ≤ cexConfig.pipelineCount ∧
         st.session.unackedSize ≤ cexConfig.pipelineSize) :=
  ⟨sendUpdate (sendUpdate (initState cexConfig 0)),
   Reachable.send (Reachable.send Reachable.init (by decide)) (by decide),
   by decide⟩

/-- C1 (amended): for every state reachable by guarded sends and acks
that are non-stale when processed, and responseSize positive,
`unackedCount ≤ pipelineCount` and
`unackedSize < pipelineSize + responseSize` hold.  (A send may overshoot
the byte credit by up to responseSize - 1, and an accepted stale ack may
push unackedCount past pipelineCount, so the original bounds fail.) -/
theorem c1_credit_invariant_amended (cfg : SessionConfig) (sid : Nat) (st : ClientState)
    (hr : 0 < cfg.responseSize) (h : NSReachable cfg sid st) :
    st.session.unackedCount ≤ cfg.pipelineCount ∧
    st.session.unackedSize < cfg.pipelineSize + cfg.responseSize := by
  induction h with
  | init =>
    refine ⟨Nat.zero_le _, ?_⟩
    show (0 : Nat) < cfg.pipelineSize + cfg.responseSize
    omega
  | send hprev hcs ih =>
    rename_i st
    have hcfg := nsreachable_config hprev
    obtain ⟨hsz, hct⟩ := hcs
    rw [hcfg] at hsz hct
    obtain ⟨ih1, ih2⟩ := ih
    have e1 : (sendUpdate st).session.unackedCount =
        mod64 (st.session.unackedCount + 1) := rfl
    have e2 : (sendUpdate st).session.unackedSize =
        mod64 (st.session.unackedSize + st.session.config.responseSize) := rfl
    have m1 : mod64 (st.session.unackedCount + 1) ≤ st.session.unackedCount + 1 :=
      Nat.mod_le _ _
    have m2 : mod64 (st.session.unackedSize + cfg.responseSize) ≤
        st.session.unackedSize + cfg.responseSize := Nat.mod_le _ _
    rw [e1, e2, hcfg]
    exact ⟨by omega, by omega⟩
  | ack a hprev hns ih =>
    obtain ⟨l1, l2⟩ := ackObserver_unacked_le _ a hns
    exact ⟨le_trans l1 ih.1, lt_of_le_of_lt l2 ih.2⟩

/-- Witness for the amended C1 invariant at the initial state of the
counterexample configuration. -/
theorem c1_credit_invariant_amended_witness :
    (initState cexConfig 0).session.unackedCount ≤ cexConfig.pipelineCount ∧
    (initState cexConfig 0).session.unackedSize <
      cexConfig.pipelineSize + cexConfig.responseSize :=
  c1_credit_invariant_amended cexConfig 0 _ (by decide) NSReachable.init

/-- C2: after the observer processes an ack that passes the session-id,
count and size checks, `totalCount - unackedCount = ack.totalCount` and
`totalSize - unackedSize = ack.totalSize`. -/
theorem c2_accepted_ack_totals (st : ClientState) (a : Ack)
    (h1 : a.sessionID = st.session.sessionID)
    (h2 : a.totalCount ≤ st.session.totalCount)
    (h3 : a.totalSize ≤ st.session.totalSize) :
    ((ackObserver st (some a)).state).session.totalCount -
        ((ackObserver st (some a)).state).session.unackedCount = a.totalCount ∧
    ((ackObserver st (some a)).state).session.totalSize -
        ((ackObserver st (some a)).state).session.unackedSize = a.totalSize := by
  rw [ackObserver_processed st a h1 h2 h3]
  dsimp only
  omega

/-- Witness for C2 at a concrete accepted ack. -/
theorem c2_accepted_ack_totals_witness :
    ((ackObserver stW2 (some aW2)).state).session.totalCount -
        ((ackObserver stW2 (some aW2)).state).session.unackedCount = 4 ∧
    ((ackObserver stW2 (some aW2)).state).session.totalSize -
        ((ackObserver stW2 (some aW2)).state).session.unackedSize = 2048 :=
  c2_accepted_ack_totals stW2 aW2 rfl (by decide) (by decide)

/-- C3: under a function that keeps failing, with any startTimeout s,
any rate, and retries ≥ 4, the timeouts passed to the function on
attempts 1..4 are s·1, s·2, s·6, s·24 (each attempt multiplies the
current timeout by the attempt number; rate never enters). -/
theorem c3_timeout_schedule (s R rate : Nat) (f : Nat → Nat → FuncOutcome)
    (hf : ∀ r t, f r t = FuncOutcome.err) (h : 4 ≤ R) :
    (((mkStrategy R rate s).run f).1.calls.map Prod.snd).take 4 =
      [s * 1, s * 2, s * 6, s * 24] := by
  obtain ⟨k, rfl⟩ : ∃ k, R = k + 4 := ⟨R - 4, by omega⟩
  have hrun : ((mkStrategy (k + 4) rate s).run f).1 =
      runAux f (k + 4) (k + 4) 0 s false RunOutcome.requestTimeout := rfl
  rw [hrun]
  have h1 : runAux f (k + 4) (k + 4) 0 s false RunOutcome.requestTimeout =
      { runAux f (k + 4) (k + 3) 1 (s * 1) false RunOutcome.lastError with
        calls := (k + 4 - 1, s * 1) ::
          (runAux f (k + 4) (k + 3) 1 (s * 1) false RunOutcome.lastError).calls } :=
    runAux_err_step f hf (k + 4) (k + 3) 0 s RunOutcome.requestTimeout (by omega)
  have h2 : runAux f (k + 4) (k + 3) 1 (s * 1) false RunOutcome.lastError =
      { runAux f (k + 4) (k + 2) 2 (s * 1 * 2) false RunOutcome.lastError with
        calls := (k + 4 - 2, s * 1 * 2) ::
          (runAux f (k + 4) (k + 2) 2 (s * 1 * 2) false RunOutcome.lastError).calls } :=
    runAux_err_step f hf (k + 4) (k + 2) 1 (s * 1) RunOutcome.lastError (by omega)
  have h3 : runAux f (k + 4) (k + 2) 2 (s * 1 * 2) false RunOutcome.lastError =
      { runAux f (k + 4) (k + 1) 3 (s * 1 * 2 * 3) false RunOutcome.lastError with
        calls := (k + 4 - 3, s * 1 * 2 * 3) ::
          (runAux f (k + 4) (k + 1) 3 (s * 1 * 2 * 3) false RunOutcome.lastError).calls } :=
    runAux_err_step f hf (k + 4) (k + 1) 2 (s * 1 * 2) RunOutcome.lastError (by omega)
  have h4 : runAux f (k + 4) (k + 1) 3 (s * 1 * 2 * 3) false RunOutcome.lastError =
      { runAux f (k + 4) k 4 (s * 1 * 2 * 3 * 4) false RunOutcome.lastError with
        calls := (k + 4 - 4, s * 1 * 2 * 3 * 4) ::
          (runAux f (k + 4) k 4 (s * 1 * 2 * 3 * 4) false RunOutcome.lastError).calls } :=
    runAux_err_step f hf (k + 4) k 3 (s * 1 * 2 * 3) RunOutcome.lastError (by omega)
  rw [h1, h2, h3, h4]
  simp [List.take_succ_cons, mul_assoc]

/-- Witness for C3 at the discovery parameters: startTimeout 10 ms,
retries 10, rate 3 give first four timeouts 10, 20, 60, 240 ms. -/
theorem c3_timeout_schedule_witness :
    (((mkStrategy 10 3 10).run (fun _ _ => FuncOutcome.err)).1.calls.map Prod.snd).take 4 =
      [10 * 1, 10 * 2, 10 * 6, 10 * 24] :=
  c3_timeout_schedule 10 10 3 (fun _ _ => FuncOutcome.err) (fun _ _ => rfl) (by omega)

/-- C4 (code bug): run never sets the used flag, so a second run on the
same strategy does not yield DuplicateExecutionException; it skips the
function (no calls) and returns the default RequestTimeoutException.
Evaluated here after a first successful run of a retries = 1 driver. -/
theorem c4_second_run_not_duplicate :
    ((mkStrategy 1 3 10).run (fun _ _ => FuncOutcome.ok)).1.res = RunOutcome.ok ∧
    ((mkStrategy 1 3 10).run (fun _ _ => FuncOutcome.ok)).2.used = false ∧
    (((mkStrategy 1 3 10).run (fun _ _ => FuncOutcome.ok)).2.run
        (fun _ _ => FuncOutcome.ok)).1.calls = [] ∧
    (((mkStrategy 1 3 10).run (fun _ _ => FuncOutcome.ok)).2.run
        (fun _ _ => FuncOutcome.ok)).1.res = RunOutcome.requestTimeout ∧
    (((mkStrategy 1 3 10).run (fun _ _ => FuncOutcome.ok)).2.run
        (fun _ _ => FuncOutcome.ok)).1.res ≠ RunOutcome.duplicate := by
  decide

/-- C5 (code bug): the observer never updates `_lastAckedTotal`: after a
fully accepted ack with totalCount = 1 it still holds its initial 0,
although the largest totalCount observed in an ack is 1. -/
theorem c5_lastAckedTotal_never_updated :
    (ackObserver stC5 (some aC5)).dropped = false ∧
    aC5.totalCount = 1 ∧
    stC5.lastAckedTotal = 0 ∧
    (ackObserver stC5 (some aC5)).state.lastAckedTotal = 0 := by
  decide

/-- C6 counterexample: an ack whose checksum (99) differs from
totalCount·(totalCount+1)/2 (= 6) still passes the session, count and
size checks and is accepted: its credit update runs (unackedCount drops
from 3 to 0), refuting the claim that every accepted ack satisfies the
checksum law. -/
theorem c6_counterexample :
    (ackObserver stC6 (some aC6)).dropped = false ∧
    (ackObserver stC6 (some aC6)).state.session.unackedCount = 0 ∧
    stC6.session.unackedCount = 3 ∧
    ¬ aC6.checksum = ackChecksum aC6.totalCount := by
  decide

/-- C6 (amended): the checksum is compared against
totalCount·(totalCount+1)/2 on every ack that passes the session, count
and size checks — a mismatch logs a warning — but the ack is accepted
and processed regardless of the comparison. -/
theorem c6_checksum_warn_amended (st : ClientState) (a : Ack)
    (h1 : a.sessionID = st.session.sessionID)
    (h2 : a.totalCount ≤ st.session.totalCount)
    (h3 : a.totalSize ≤ st.session.totalSize) :
    (ackObserver st (some a)).dropped = false ∧
    (AckWarn.checksumMismatch ∈ (ackObserver st (some a)).warnings ↔
      a.checksum ≠ ackChecksum a.totalCount) := by
  rw [ackObserver_processed st a h1 h2 h3]
  refine ⟨rfl, ?_⟩
  by_cases hst : a.totalCount ≤ st.lastAckedTotal <;>
    by_cases hcs : a.checksum = ackChecksum a.totalCount <;>
      simp [hst, hcs]

/-- Witness for the amended C6 at a concrete mismatching ack. -/
theorem c6_checksum_warn_amended_witness :
    (ackObserver stC6 (some aC6)).dropped = false ∧
    (AckWarn.checksumMismatch ∈ (ackObserver stC6 (some aC6)).warnings ↔
      aC6.checksum ≠ ackChecksum aC6.totalCount) :=
  c6_checksum_warn_amended stC6 aC6 rfl (by decide) (by decide)

/-- C7 counterexample: from a state with credit available but one
request already in flight (unackedCount = 1), one send followed by an
accepted ack whose totals equal the post-send cumulative totals leaves
unackedCount = 0, not its pre-send value 1. -/
theorem c7_counterexample :
    canSend stC7 ∧
    aC7.sessionID = (sendUpdate stC7).session.sessionID ∧
    aC7.totalCount = (sendUpdate stC7).session.totalCount ∧
    aC7.totalSize = (sendUpdate stC7).session.totalSize ∧
    (ackObserver (sendUpdate stC7) (some aC7)).dropped = false ∧
    (ackObserver (sendUpdate stC7) (some aC7)).state.session.unackedCount ≠
      stC7.session.unackedCount := by
  decide

/-- C7 (amended): from a state with credit available and nothing in
flight (unackedCount = unackedSize = 0), one send followed by an
accepted ack whose totals equal the post-send cumulative totals returns
unackedCount and unackedSize to their pre-send values. -/
theorem c7_round_trip_amended (st : ClientState) (a : Ack)
    (_hcs : canSend st)
    (h0c : st.session.unackedCount = 0) (h0s : st.session.unackedSize = 0)
    (hid : a.sessionID = st.session.sessionID)
    (htc : a.totalCount = (sendUpdate st).session.totalCount)
    (hts : a.totalSize = (sendUpdate st).session.totalSize) :
    (ackObserver (sendUpdate st) (some a)).state.session.unackedCount =
      st.session.unackedCount ∧
    (ackObserver (sendUpdate st) (some a)).state.session.unackedSize =
      st.session.unackedSize := by
  have hid2 : a.sessionID = (sendUpdate st).session.sessionID := hid
  rw [ackObserver_processed (sendUpdate st) a hid2 (le_of_eq htc) (le_of_eq hts)]
  dsimp only
  omega

/-- Witness for the amended C7 at a concrete empty-pipeline state. -/
theorem c7_round_trip_amended_witness :
    (ackObserver (sendUpdate stW7) (some aW7)).state.session.unackedCount =
      stW7.session.unackedCount ∧
    (ackObserver (sendUpdate stW7) (some aW7)).state.session.unackedSize =
      stW7.session.unackedSize :=
  c7_round_trip_amended stW7 aW7 (by decide) (by decide) (by decide) (by decide)
    (by decide) (by decide)

/-- C8: an ack with a wrong session id, or a count above the issued
total, or a size above the issued total, is dropped with no state
change, no latency sample and no awakener fulfilment; an ack that passes
those checks but has totalCount ≤ lastAckedTotal logs the stale warning
and is still fully processed (credit updated by the usual formulas). -/
theorem c8_drop_and_stale (st : ClientState) (a : Ack) :
    ((a.sessionID ≠ st.session.sessionID ∨ st.session.totalCount < a.totalCount ∨
        st.session.totalSize < a.totalSize) →
      (ackObserver st (some a)).state = st ∧ (ackObserver st (some a)).samples = [] ∧
      (ackObserver st (some a)).fulfilled = false) ∧
    ((a.sessionID = st.session.sessionID ∧ a.totalCount ≤ st.session.totalCount ∧
        a.totalSize ≤ st.session.totalSize ∧ a.totalCount ≤ st.lastAckedTotal) →
      AckWarn.tooOld ∈ (ackObserver st (some a)).warnings ∧
      (ackObserver st (some a)).dropped = false ∧
      (ackObserver st (some a)).state.session.unackedCount =
        st.session.totalCount - a.totalCount ∧
      (ackObserver st (some a)).state.session.unackedSize =
        st.session.totalSize - a.totalSize) := by
  constructor
  · intro hdrop
    by_cases hs : a.sessionID ≠ st.session.sessionID
    · rw [ackObserver_drop_session st a hs]
      exact ⟨rfl, rfl, rfl⟩
    · have h1 := not_not.mp hs
      by_cases hc : st.session.totalCount < a.totalCount
      · rw [ackObserver_drop_count st a h1 hc]
        exact ⟨rfl, rfl, rfl⟩
      · have h2 := Nat.not_lt.mp hc
        have h3 : st.session.totalSize < a.totalSize := by tauto
        rw [ackObserver_drop_size st a h1 h2 h3]
        exact ⟨rfl, rfl, rfl⟩
  · rintro ⟨h1, h2, h3, h4⟩
    rw [ackObserver_processed st a h1 h2 h3]
    refine ⟨?_, rfl, rfl, rfl⟩
    simp [h4]

/-- Witness for C8: a wrong-session ack is dropped without effect, and
a stale but otherwise valid ack is processed with the stale warning. -/
theorem c8_drop_and_stale_witness :
    ((ackObserver stW8 (some aW8bad)).state = stW8 ∧
      (ackObserver stW8 (some aW8bad)).samples = [] ∧
      (ackObserver stW8 (some aW8bad)).fulfilled = false) ∧
    (AckWarn.tooOld ∈ (ackObserver stW8 (some aW8stale)).warnings ∧
      (ackObserver stW8 (some aW8stale)).dropped = false ∧
      (ackObserver stW8 (some aW8stale)).state.session.unackedCount =
        stW8.session.totalCount - aW8stale.totalCount ∧
      (ackObserver stW8 (some aW8stale)).state.session.unackedSize =
        stW8.session.totalSize - aW8stale.totalSize) :=
  ⟨(c8_drop_and_stale stW8 aW8bad).1 (Or.inl (by decide)),
   (c8_drop_and_stale stW8 aW8stale).2 ⟨rfl, by decide, by decide, by decide⟩⟩

/-- C9: an ACK delivery with an absent payload is ignored entirely: no
state change, no warning, no latency sample, no awakener fulfilment. -/
theorem c9_null_payload_ignored (st : ClientState) :
    ackObserver st none = ⟨st, false, [], [], false⟩ := rfl

/-- C10: a processed ack records exactly
`ack.totalCount - (totalCount - unackedCount)` latency samples (zero for
a stale ack covering only acknowledged requests), and every ring index
sampled is below pipelineCount. -/
theorem c10_latency_samples (st : ClientState) (a : Ack)
    (h1 : a.sessionID = st.session.sessionID)
    (h2 : a.totalCount ≤ st.session.totalCount)
    (h3 : a.totalSize ≤ st.session.totalSize)
    (hP : 0 < st.session.config.pipelineCount)
    (huc : st.session.unackedCount ≤ st.session.totalCount) :
    (ackObserver st (some a)).samples.length =
      a.totalCount - (st.session.totalCount - st.session.unackedCount) ∧
    (a.totalCount ≤ st.session.totalCount - st.session.unackedCount →
      (ackObserver st (some a)).samples = []) ∧
    ∀ i ∈ (ackObserver st (some a)).samples, i < st.session.config.pipelineCount := by
  have hstart : ackSampleStart st.session.totalCount st.session.unackedCount =
      st.session.totalCount - st.session.unackedCount := by
    simp [ackSampleStart, huc]
  rw [ackObserver_processed st a h1 h2 h3]
  refine ⟨?_, ?_, ?_⟩
  · simp [hstart]
  · intro hle
    simp [hstart, Nat.sub_eq_zero_of_le hle]
  · intro i hi
    simp only [List.mem_map] at hi
    obtain ⟨r, _, rfl⟩ := hi
    exact Nat.mod_lt _ hP

/-- Witness for C10 at a concrete partially-covering ack (one new
request acked, ring index 3 < 10). -/
theorem c10_latency_samples_witness :
    (ackObserver stW10 (some aW10)).samples.length =
      aW10.totalCount - (stW10.session.totalCount - stW10.session.unackedCount) ∧
    (aW10.totalCount ≤ stW10.session.totalCount - stW10.session.unackedCount →
      (ackObserver stW10 (some aW10)).samples = []) ∧
    ∀ i ∈ (ackObserver stW10 (some aW10)).samples, i < stW10.session.config.pipelineCount :=
  c10_latency_samples stW10 aW10 rfl (by decide) (by decide) (by decide) (by decide)

end Txbench
